import Mathlib

/-!
A verification model of the django-drip campaign core (`drip/drips.py`).

This file gives a shallow embedding of the drip-campaign evaluation and
deduplication core: the `DripEmail` message builder and the `DripBase`
campaign-instance pipeline (`now`, `walk`, `get_queryset`, `prune`,
`build_email`, `send`, `run`).

External collaborators are modelled as explicit data:
* the persistent store (sent-drip records) is a list threaded through an
  explicit `World` state, together with an outbox of transported messages
  and a counter of candidate/database queries issued;
* the Django settings object is a record of optional configuration strings;
* the templating engine is an opaque rendering function `String → User →
  String` carried by the environment (Django `Template(...).render` fails on
  a `None` template source, which the model reflects by rendering an
  `Option String` template);
* the mail transport is a function `Email → Bool` deciding whether
  `email.send()` succeeds;
* queryset rules (`drip.models.QuerysetRule.apply`) are opaque functions
  from a candidate list and the instance's effective now to a candidate
  list, applied in order exactly as `apply_queryset_rules` does.

Time is modelled as integer seconds; `timedelta(days=d)` is `d * 86400`.
Python truthiness of optional strings (`if not self.name`) is `optFalsy`.
-/

namespace DripCore

/-- A user record (`django.contrib.auth.models.User`): the core reads
its `id` and `email`. -/
structure User where
  id : Nat
  email : String
deriving DecidableEq, Repr

/-- A queryset rule, as the core sees it: `queryset_rule.apply(qs, now=...)`
restricted to the data the core passes in.  The second argument is the value
the campaign instance's `now()` evaluates to. -/
def Rule : Type := List User → Int → List User

/-- The persisted campaign definition (`drip.models.Drip`) as consumed by
the core: an identifier, the `enabled` flag and the ordered
`queryset_rules`. -/
structure Drip where
  id : Nat
  enabled : Bool
  queryset_rules : List Rule

/-- A sent-drip record (`drip.models.SentDrip`) with the fields the core
writes in `build_email` and reads in `prune`. -/
structure SentDrip where
  drip : Nat
  userId : Nat
  date : Int
  from_email : Option String
  from_email_name : Option String
  subject : String
  body : String
deriving DecidableEq, Repr

/-- A built multipart message (`EmailMultiAlternatives`): subject, primary
(plain-text) body, sender header, recipients, and attached alternative
parts as `(content, mimetype)` pairs. -/
structure Email where
  subject : String
  body : String
  sender : String
  recipients : List String
  alternatives : List (String × String)
deriving DecidableEq, Repr

/-- The slice of `django.conf.settings` the core reads. -/
structure Settings where
  DRIP_FROM_EMAIL : Option String
  DEFAULT_FROM_EMAIL : Option String
deriving DecidableEq, Repr

/-- The external environment of one invocation: the real current time
(`conditional_now()`), the settings, the user table backing
`User.objects`, the templating engine and the mail transport. -/
structure Env where
  realNow : Int
  settings : Settings
  allUsers : List User
  render : String → User → String
  transport : Email → Bool

/-- The mutable world threaded through the pipeline: the sent-drip table,
the transported-message outbox, and a count of candidate/database queries
issued. -/
structure World where
  sentDrips : List SentDrip
  outbox : List Email
  queries : Nat

/-- Errors surfaced by the pipeline. -/
inductive BuildError where
  /-- no resolvable sender address (`AttributeError` on `settings`) -/
  | configError
  /-- rendering a missing (`None`) template source -/
  | templateError
  /-- the transport call `email.send()` failed -/
  | transportError
deriving DecidableEq, Repr

/-- Python truthiness test `not x` for an optional string: `None` and the
empty string are falsy. -/
def optFalsy : Option String → Bool
  | none => true
  | some s => s.isEmpty

/-- Model of `django.utils.html.strip_tags` on a character list: drop
every tag region between an opening and a closing angle bracket. -/
def stripTagsAux : List Char → Bool → List Char
  | [], _ => []
  | c :: rest, inTag =>
    if inTag then
      if c = '>' then stripTagsAux rest false else stripTagsAux rest true
    else
      if c = '<' then stripTagsAux rest true else c :: stripTagsAux rest false

/-- Model of `django.utils.html.strip_tags`: the rendered body with
markup removed. -/
def strip_tags (s : String) : String := ⟨stripTagsAux s.data false⟩

/-- A campaign instance: one `DripBase` object.  `_queryset` is the cached
candidate set (`self._queryset`), absent until `get_queryset` first
computes it. -/
structure DripBase where
  drip_model : Drip
  name : Option String
  from_email : Option String
  from_email_name : Option String
  subject_template : Option String
  body_template : Option String
  now_shift_days : Int
  _queryset : Option (List User)

/-- The keyword arguments accepted by `DripBase.__init__`; an absent field
models an absent key (the class-level defaults are all `None`). -/
structure InitKwargs where
  name : Option String := none
  from_email : Option String := none
  from_email_name : Option String := none
  subject_template : Option String := none
  body_template : Option String := none
  now_shift_kwargs : Option Int := none

/-- Model of `DripBase.__init__`: bind the drip model and keyword arguments, raise
`AttributeError` when no (truthy) name results, default the time shift to
zero days. -/
def DripBase.init (drip_model : Drip) (k : InitKwargs) : Except String DripBase :=
  if optFalsy k.name then
    .error "You must define a name."
  else
    .ok { drip_model := drip_model
          name := k.name
          from_email := k.from_email
          from_email_name := k.from_email_name
          subject_template := k.subject_template
          body_template := k.body_template
          now_shift_days := k.now_shift_kwargs.getD 0
          _queryset := none }

/-- Model of `DripBase.now()`: `conditional_now() + timedelta(**now_shift_kwargs)`,
with the shift in whole days. -/
def DripBase.now (self : DripBase) (realNow : Int) : Int :=
  realNow + self.now_shift_days * 86400

/-- The integer range `[a, b)`, as Python `range(a, b)` over signed
integers. -/
def intRange (a b : Int) : List Int :=
  (List.range (b - a).toNat).map (fun (i : Nat) => a + (i : Int))

/-- The body of `DripBase.walk`'s loop: build one sibling instance per
shift, propagating a constructor error. -/
def DripBase.walkAux (self : DripBase) : List Int → Except String (List DripBase)
  | [] => .ok []
  | s :: rest =>
    match DripBase.init self.drip_model
        { name := self.name, now_shift_kwargs := some s } with
    | .error e => .error e
    | .ok d =>
      match self.walkAux rest with
      | .error e => .error e
      | .ok ds => .ok (d :: ds)

/-- Model of `DripBase.walk(into_past, into_future)`: one fresh sibling instance per
day shift in `range(-into_past, into_future)`, each sharing the drip model
and name. -/
def DripBase.walk (self : DripBase) (into_past into_future : Int) :
    Except String (List DripBase) :=
  self.walkAux (intRange (-into_past) into_future)

/-- Model of `DripBase.queryset()`: the user-overridable base set, `User.objects`
by default. -/
def DripBase.queryset (_self : DripBase) (env : Env) : List User :=
  env.allUsers

/-- Model of `DripBase.apply_queryset_rules`: fold the drip model's rules over the
candidate set in order, each applied with the instance's `now`. -/
def DripBase.apply_queryset_rules (self : DripBase) (env : Env) (qs : List User) :
    List User :=
  self.drip_model.queryset_rules.foldl (fun q rule => rule q (self.now env.realNow)) qs

/-- Model of `.distinct()`: deduplicate, keeping first occurrences. -/
def dedupAux : List User → List User → List User
  | [], _ => []
  | u :: rest, seen =>
    if u ∈ seen then dedupAux rest seen else u :: dedupAux rest (u :: seen)

/-- Model of `.distinct()` on a candidate list. -/
def dedupUsers (l : List User) : List User := dedupAux l []

/-- Model of `DripBase.get_queryset()`: return the cached candidate set if present,
else compute base set → rules → distinct, cache it, and issue one
candidate query. -/
def DripBase.get_queryset (self : DripBase) (env : Env) (w : World) :
    List User × DripBase × World :=
  match self._queryset with
  | some qs => (qs, self, w)
  | none =>
    let qs := dedupUsers (self.apply_queryset_rules env (self.queryset env))
    (qs, { self with _queryset := some qs }, { w with queries := w.queries + 1 })

/-- Model of `DripBase.prune()`: exclude from the cached candidate set every user id
owning a `SentDrip` for this drip with `date < conditional_now()` (the real
current time), restricted to the current target ids; store the pruned set
back in the cache.  The `SentDrip` lookup issues one query. -/
def DripBase.prune (self : DripBase) (env : Env) (w : World) : DripBase × World :=
  let r1 := self.get_queryset env w
  let target_user_ids := r1.1.map (fun u => u.id)
  let exclude_user_ids :=
    (r1.2.2.sentDrips.filter (fun sd =>
        decide (sd.date < env.realNow) && sd.drip == r1.2.1.drip_model.id &&
          target_user_ids.contains sd.userId)).map (fun sd => sd.userId)
  let r2 := r1.2.1.get_queryset env r1.2.2
  let pruned := r2.1.filter (fun u => !(exclude_user_ids.contains u.id))
  ({ r2.2.1 with _queryset := some pruned },
   { r2.2.2 with queries := r2.2.2.queries + 1 })

/-- The sender-address resolution at the top of `DripBase.build_email`:
when `self.from_email` is falsy, evaluate
`getattr(settings, 'DRIP_FROM_EMAIL', settings.DEFAULT_FROM_EMAIL)` — the
default argument is evaluated eagerly, so a missing `DEFAULT_FROM_EMAIL`
raises `AttributeError` — and assign the result to `self.from_email`. -/
def DripBase.resolveFrom (self : DripBase) (env : Env) : Except BuildError DripBase :=
  if optFalsy self.from_email then
    match env.settings.DEFAULT_FROM_EMAIL with
    | none => .error .configError
    | some d => .ok { self with from_email := some (env.settings.DRIP_FROM_EMAIL.getD d) }
  else
    .ok self

/-- The sender header of `DripEmail.email`: `"name <addr>"` when a truthy
display name is configured, else the bare address. -/
def senderHeader (self : DripBase) : String :=
  if optFalsy self.from_email_name then
    self.from_email.getD ""
  else
    self.from_email_name.getD "" ++ " <" ++ self.from_email.getD "" ++ ">"

/-- The message `DripEmail.email` builds once both templates are present:
rendered subject, stripped plain text as primary body, and the raw
rendered body attached as a `text/html` alternative exactly when its
length differs from the stripped text's. -/
def mkEmail (self : DripBase) (env : Env) (u : User) (st bt : String) : Email :=
  let subject := env.render st u
  let body := env.render bt u
  let plain := strip_tags body
  { subject := subject
    body := plain
    sender := senderHeader self
    recipients := [u.email]
    alternatives := if plain.length ≠ body.length then [(body, "text/html")] else [] }

/-- Model of `DripEmail(drip_base, user).email`: render the subject, then the body
(via `plain`); `Template(None)` raises, modelled as `templateError`. -/
def DripEmail.emailOf (self : DripBase) (env : Env) (u : User) : Except BuildError Email :=
  match self.subject_template with
  | none => .error .templateError
  | some st =>
    match self.body_template with
    | none => .error .templateError
    | some bt => .ok (mkEmail self env u st bt)

/-- The `SentDrip` row `build_email` creates for a user: this drip, this
user, created now (real time), with the resolved sender and the built
message's subject and (plain) body. -/
def sentRecFor (self : DripBase) (env : Env) (u : User) (st bt : String) : SentDrip :=
  { drip := self.drip_model.id
    userId := u.id
    date := env.realNow
    from_email := self.from_email
    from_email_name := self.from_email_name
    subject := (mkEmail self env u st bt).subject
    body := (mkEmail self env u st bt).body }

/-- Model of `DripBase.build_email(user, send)`: resolve the sender (mutating
`self.from_email` when it was falsy), build the message; when `send` is
true, first create the `SentDrip` record, then invoke the transport,
surfacing a transport failure without removing the record. -/
def DripBase.build_email (self : DripBase) (u : User) (send : Bool) (env : Env)
    (w : World) : Except BuildError Email × DripBase × World :=
  match self.resolveFrom env with
  | .error e => (.error e, self, w)
  | .ok self1 =>
    match DripEmail.emailOf self1 env u with
    | .error e => (.error e, self1, w)
    | .ok email =>
      if send then
        let sd : SentDrip :=
          { drip := self1.drip_model.id
            userId := u.id
            date := env.realNow
            from_email := self1.from_email
            from_email_name := self1.from_email_name
            subject := email.subject
            body := email.body }
        let w1 := { w with sentDrips := w.sentDrips ++ [sd] }
        if env.transport email then
          (.ok email, self1, { w1 with outbox := w1.outbox ++ [email] })
        else
          (.error .transportError, self1, w1)
      else
        (.ok email, self1, w)

/-- The loop of `DripBase.send`: build-and-send for each user of the
candidate set in order, counting sends; an exception aborts the loop. -/
def sendLoop (env : Env) : DripBase → World → List User → Nat →
    Except BuildError Nat × DripBase × World
  | self, w, [], count => (.ok count, self, w)
  | self, w, u :: rest, count =>
    match self.build_email u true env w with
    | (.ok _, self1, w1) => sendLoop env self1 w1 rest (count + 1)
    | (.error e, self1, w1) => (.error e, self1, w1)

/-- Model of `DripBase.send()`: iterate the (cached) candidate set, build and send
to each user, return the count. -/
def DripBase.send (self : DripBase) (env : Env) (w : World) :
    Except BuildError Nat × DripBase × World :=
  let r := self.get_queryset env w
  sendLoop env r.2.1 r.2.2 r.1 0

/-- Model of `DripBase.run()`: return `None` at once when the drip model is
disabled, else prune, send and return the count. -/
def DripBase.run (self : DripBase) (env : Env) (w : World) :
    Except BuildError (Option Nat) × DripBase × World :=
  if self.drip_model.enabled then
    let r1 := self.prune env w
    match r1.1.send env r1.2 with
    | (.ok c, self2, w2) => (.ok (some c), self2, w2)
    | (.error e, self2, w2) => (.error e, self2, w2)
  else (.ok none, self, w)

/-- The prune-then-send composition `run` is claimed to perform when the
drip model is enabled, stated separately so the orchestration theorem can
compare `run` against it. -/
def pruneThenSend (self : DripBase) (env : Env) (w : World) :
    Except BuildError (Option Nat) × DripBase × World :=
  let r1 := self.prune env w
  match r1.1.send env r1.2 with
  | (.ok c, self2, w2) => (.ok (some c), self2, w2)
  | (.error e, self2, w2) => (.error e, self2, w2)

/-- The agreement of core attributes the spec calls immutable, apart from
the sender address: `b` carries the same drip model, name, sender display
name, templates and time shift as `a`. -/
def sameCore (a b : DripBase) : Prop :=
  b.drip_model = a.drip_model ∧ b.name = a.name ∧
  b.from_email_name = a.from_email_name ∧
  b.subject_template = a.subject_template ∧
  b.body_template = a.body_template ∧
  b.now_shift_days = a.now_shift_days

/-- The sibling instance `walk` constructs for a given day shift: same drip
model and name, every other attribute at its class default, no cached
candidate set. -/
def siblingAt (self : DripBase) (s : Int) : DripBase :=
  { drip_model := self.drip_model
    name := self.name
    from_email := none
    from_email_name := none
    subject_template := none
    body_template := none
    now_shift_days := s
    _queryset := none }

/-! ## Concrete instances used by witnesses and counterexamples -/

/-- A sample user. -/
def sampleUser : User := ⟨1, "u@example.com"⟩

/-- A second sample user. -/
def sampleUser2 : User := ⟨2, "v@example.com"⟩

/-- An enabled drip model with no queryset rules. -/
def enabledModel : Drip := ⟨7, true, []⟩

/-- A disabled drip model. -/
def disabledModel : Drip := ⟨7, false, []⟩

/-- Settings with only the system-wide default sender configured. -/
def sampleSettings : Settings := ⟨none, some "webmaster@localhost"⟩

/-- Settings with no sender configured anywhere. -/
def emptySettings : Settings := ⟨none, none⟩

/-- A sample environment: time zero, default sender available, two users,
identity-like rendering, always-succeeding transport. -/
def sampleEnv : Env :=
  { realNow := 0
    settings := sampleSettings
    allUsers := [sampleUser, sampleUser2]
    render := fun t _ => t
    transport := fun _ => true }

/-- The sample environment with an always-failing transport. -/
def failEnv : Env :=
  { realNow := 0
    settings := sampleSettings
    allUsers := [sampleUser, sampleUser2]
    render := fun t _ => t
    transport := fun _ => false }

/-- The sample environment with no sender configured anywhere. -/
def bareEnv : Env :=
  { realNow := 0
    settings := emptySettings
    allUsers := [sampleUser, sampleUser2]
    render := fun t _ => t
    transport := fun _ => true }

/-- An empty world. -/
def emptyWorld : World := ⟨[], [], 0⟩

/-- A fully configured campaign instance on the enabled model, body
template containing markup, nothing cached. -/
def sampleDrip : DripBase :=
  { drip_model := enabledModel
    name := some "camp"
    from_email := some "a@b.com"
    from_email_name := none
    subject_template := some "Subj"
    body_template := some "<b>hi</b>"
    now_shift_days := 0
    _queryset := none }

/-- The sample instance with the candidate set already cached. -/
def cachedDrip : DripBase :=
  { sampleDrip with _queryset := some [sampleUser, sampleUser2] }

/-- The sample instance shifted one day into the future, with a cached
candidate set holding one user. -/
def shiftedDrip : DripBase :=
  { sampleDrip with now_shift_days := 1, _queryset := some [sampleUser] }

/-- The sample instance with no sender address configured. -/
def unsetFromDrip : DripBase := { sampleDrip with from_email := none }

/-- The sample instance bound to the disabled model. -/
def disabledDrip : DripBase := { sampleDrip with drip_model := disabledModel }

/-- A sent-drip record for `sampleUser` on the sample campaign, created at
time zero. -/
def sentAtZero : SentDrip :=
  { drip := 7
    userId := 1
    date := 0
    from_email := some "a@b.com"
    from_email_name := none
    subject := "Subj"
    body := "hi" }

/-- A world whose sent-drip table holds exactly `sentAtZero`. -/
def worldWithSent : World := ⟨[sentAtZero], [], 0⟩


/-- Helper: a second `get_queryset` call hits the cache installed by the
first and changes nothing. -/
theorem get_queryset_stable (self : DripBase) (env : Env) (w : World) :
    (self.get_queryset env w).2.1.get_queryset env (self.get_queryset env w).2.2 =
      ((self.get_queryset env w).1, (self.get_queryset env w).2.1,
        (self.get_queryset env w).2.2) := by
  cases h : self._queryset <;> simp [DripBase.get_queryset, h]

/-- Helper: `get_queryset` leaves every instance attribute but the cache
unchanged. -/
theorem get_queryset_fields (self : DripBase) (env : Env) (w : World) :
    (self.get_queryset env w).2.1.drip_model = self.drip_model ∧
    (self.get_queryset env w).2.1.name = self.name ∧
    (self.get_queryset env w).2.1.from_email = self.from_email ∧
    (self.get_queryset env w).2.1.from_email_name = self.from_email_name ∧
    (self.get_queryset env w).2.1.subject_template = self.subject_template ∧
    (self.get_queryset env w).2.1.body_template = self.body_template ∧
    (self.get_queryset env w).2.1.now_shift_days = self.now_shift_days := by
  cases h : self._queryset <;> simp [DripBase.get_queryset, h]

/-- Helper: `get_queryset` touches only the query counter of the world. -/
theorem get_queryset_world (self : DripBase) (env : Env) (w : World) :
    (self.get_queryset env w).2.2.sentDrips = w.sentDrips ∧
    (self.get_queryset env w).2.2.outbox = w.outbox := by
  cases h : self._queryset <;> simp [DripBase.get_queryset, h]

/-- C6: the candidate set resolver is idempotent — a second
`get_queryset()` call on the resulting instance, without an intervening
`prune()`, returns the identical cached set and changes neither the
instance nor the world. -/
theorem get_queryset_idempotent (self : DripBase) (env : Env) (w : World) :
    ((self.get_queryset env w).2.1.get_queryset env (self.get_queryset env w).2.2).1 =
        (self.get_queryset env w).1 ∧
    ((self.get_queryset env w).2.1.get_queryset env (self.get_queryset env w).2.2).2.1 =
        (self.get_queryset env w).2.1 ∧
    ((self.get_queryset env w).2.1.get_queryset env (self.get_queryset env w).2.2).2.2 =
        (self.get_queryset env w).2.2 := by
  rw [get_queryset_stable]
  exact ⟨rfl, rfl, rfl⟩

/-- C3: `run()` on a disabled campaign returns `None` immediately, leaving
the instance and the world (sent records, outbox, query count) untouched;
on an enabled campaign it performs exactly the prune-then-send
composition and returns its count. -/
theorem run_orchestration (self : DripBase) (env : Env) (w : World) :
    (self.drip_model.enabled = false → self.run env w = (.ok none, self, w)) ∧
    (self.drip_model.enabled = true → self.run env w = pruneThenSend self env w) := by
  constructor
  · intro h
    simp [DripBase.run, h]
  · intro h
    simp [DripBase.run, pruneThenSend, h]

/-- C3 witness: on a concrete disabled campaign, `run` is a no-op
returning `None`. -/
theorem run_orchestration_witness :
    disabledDrip.run sampleEnv emptyWorld = (.ok none, disabledDrip, emptyWorld) :=
  (run_orchestration disabledDrip sampleEnv emptyWorld).1 rfl

/-- C7: when the instance's sender is falsy and the settings define
neither `DRIP_FROM_EMAIL` nor `DEFAULT_FROM_EMAIL`, `build_email` fails
with the configuration error, for every user, `send` flag and template
configuration (so before any render could be attempted), creating no sent
record and leaving the world unchanged. -/
theorem build_email_config_error (self : DripBase) (env : Env) (w : World)
    (u : User) (s : Bool)
    (hfe : optFalsy self.from_email = true)
    (_hdrip : env.settings.DRIP_FROM_EMAIL = none)
    (hdef : env.settings.DEFAULT_FROM_EMAIL = none) :
    self.build_email u s env w = (.error .configError, self, w) := by
  simp [DripBase.build_email, DripBase.resolveFrom, hfe, hdef]

/-- C7 witness: a concrete instance with no sender and no subject template
still fails with the configuration error, not the template error. -/
theorem build_email_config_error_witness :
    ({ unsetFromDrip with subject_template := none }).build_email sampleUser true
        bareEnv emptyWorld =
      (.error .configError, { unsetFromDrip with subject_template := none },
        emptyWorld) :=
  build_email_config_error _ _ _ _ _ rfl rfl rfl


/-- Helper: constructing a sibling instance from a truthy name succeeds
and yields `siblingAt`. -/
theorem init_sibling (self : DripBase) (s : Int)
    (h : optFalsy self.name = false) :
    DripBase.init self.drip_model { name := self.name, now_shift_kwargs := some s } =
      .ok (siblingAt self s) := by
  simp [DripBase.init, h, siblingAt]

/-- Helper: `walkAux` over any shift list maps `siblingAt` when the name
is truthy. -/
theorem walkAux_ok (self : DripBase) (h : optFalsy self.name = false) :
    ∀ l : List Int, self.walkAux l = .ok (l.map (siblingAt self)) := by
  intro l
  induction l with
  | nil => rfl
  | cons s rest ih =>
    simp [DripBase.walkAux, init_sibling self s h, ih]

/-- Helper: the length of `intRange`. -/
theorem intRange_length (a b : Int) : (intRange a b).length = (b - a).toNat := by
  unfold intRange
  rw [List.length_map, List.length_range]

/-- Helper: the elements of `intRange`. -/
theorem intRange_getElem (a b : Int) (i : Nat) (hi : i < (intRange a b).length) :
    (intRange a b)[i] = a + (i : Int) := by
  simp only [intRange, List.getElem_map, List.getElem_range]

/-- C5: for all non-negative day counts `p` and `f`, `walk(p, f)` on an
instance with a truthy name succeeds with exactly `p + f` sibling
instances; the `i`-th shares the drip model and name, carries day offset
`i - p` (so the offsets run over `[-p, f)`), and is fresh (all other
attributes at class defaults, no cached candidate set). -/
theorem walk_spec (self : DripBase) (p f : Nat)
    (h : optFalsy self.name = false) :
    ∃ l, self.walk (p : Int) (f : Int) = .ok l ∧ l.length = p + f ∧
      ∀ i (hi : i < l.length),
        (l.get ⟨i, hi⟩).drip_model = self.drip_model ∧
        (l.get ⟨i, hi⟩).name = self.name ∧
        (l.get ⟨i, hi⟩).now_shift_days = (i : Int) - (p : Int) ∧
        (l.get ⟨i, hi⟩).from_email = none ∧
        (l.get ⟨i, hi⟩).from_email_name = none ∧
        (l.get ⟨i, hi⟩).subject_template = none ∧
        (l.get ⟨i, hi⟩).body_template = none ∧
        (l.get ⟨i, hi⟩)._queryset = none := by
  refine ⟨(intRange (-(p : Int)) (f : Int)).map (siblingAt self), ?_, ?_, ?_⟩
  · exact walkAux_ok self h _
  · simp [intRange_length]
    omega
  · intro i hi
    simp only [List.length_map] at hi
    simp only [List.get_eq_getElem, List.getElem_map]
    rw [intRange_getElem]
    simp [siblingAt]
    omega

/-- C5 witness: walking the concrete sample campaign one day back and two
forward yields three siblings, and the first carries offset `-1`. -/
theorem walk_spec_witness :
    ∃ l, sampleDrip.walk ((1 : Nat) : Int) ((2 : Nat) : Int) = .ok l ∧
      l.length = 1 + 2 ∧
      ∀ i (hi : i < l.length),
        (l.get ⟨i, hi⟩).drip_model = sampleDrip.drip_model ∧
        (l.get ⟨i, hi⟩).name = sampleDrip.name ∧
        (l.get ⟨i, hi⟩).now_shift_days = (i : Int) - ((1 : Nat) : Int) ∧
        (l.get ⟨i, hi⟩).from_email = none ∧
        (l.get ⟨i, hi⟩).from_email_name = none ∧
        (l.get ⟨i, hi⟩).subject_template = none ∧
        (l.get ⟨i, hi⟩).body_template = none ∧
        (l.get ⟨i, hi⟩)._queryset = none :=
  walk_spec sampleDrip 1 2 rfl


/-- Helper: stripping tags never lengthens the character list. -/
theorem stripTagsAux_length_le (l : List Char) : ∀ b : Bool,
    (stripTagsAux l b).length ≤ l.length := by
  induction l with
  | nil => intro b; simp [stripTagsAux]
  | cons c rest ih =>
    intro b
    cases b <;> simp only [stripTagsAux]
    · by_cases h : c = '<'
      · simp only [h, if_pos rfl]
        exact Nat.le_succ_of_le (ih true)
      · simp only [if_neg h, List.length_cons]
        exact Nat.succ_le_succ (ih false)
    · by_cases h : c = '>'
      · simp only [h, if_pos rfl]
        exact Nat.le_succ_of_le (ih false)
      · simp only [if_neg h]
        exact Nat.le_succ_of_le (ih true)

/-- Helper: the stripped body is never longer than the raw body. -/
theorem strip_tags_length_le (s : String) : (strip_tags s).length ≤ s.length := by
  show (stripTagsAux s.data false).length ≤ s.data.length
  exact stripTagsAux_length_le s.data false

/-- C8: with both templates present, the builder produces a message whose
primary body is the markup-stripped rendering of the body template, never
longer than the raw rendering; the raw body is attached as the sole
`text/html` alternative part exactly when the stripped length differs from
the raw length, and no alternative part exists otherwise. -/
theorem email_plain_html (self : DripBase) (env : Env) (u : User) (st bt : String)
    (hst : self.subject_template = some st) (hbt : self.body_template = some bt) :
    ∃ e, DripEmail.emailOf self env u = .ok e ∧
      e.body = strip_tags (env.render bt u) ∧
      e.body.length ≤ (env.render bt u).length ∧
      (e.alternatives = [] ↔
        (strip_tags (env.render bt u)).length = (env.render bt u).length) ∧
      (e.alternatives ≠ [] → e.alternatives = [(env.render bt u, "text/html")]) := by
  refine ⟨mkEmail self env u st bt, ?_, ?_, ?_, ?_, ?_⟩
  · simp [DripEmail.emailOf, hst, hbt]
  · rfl
  · exact strip_tags_length_le (env.render bt u)
  · simp only [mkEmail]
    by_cases h : (strip_tags (env.render bt u)).length = (env.render bt u).length
    · simp [h]
    · simp [h]
  · simp only [mkEmail]
    by_cases h : (strip_tags (env.render bt u)).length = (env.render bt u).length
    · simp [h]
    · simp [h]

/-- C8 witness: on the concrete campaign whose body template renders
`<b>hi</b>`, the message's primary body is `hi` and the raw body rides
along as the single HTML alternative. -/
theorem email_plain_html_witness :
    ∃ e, DripEmail.emailOf sampleDrip sampleEnv sampleUser = .ok e ∧
      e.body = strip_tags (sampleEnv.render "<b>hi</b>" sampleUser) ∧
      e.body.length ≤ (sampleEnv.render "<b>hi</b>" sampleUser).length ∧
      (e.alternatives = [] ↔
        (strip_tags (sampleEnv.render "<b>hi</b>" sampleUser)).length =
          (sampleEnv.render "<b>hi</b>" sampleUser).length) ∧
      (e.alternatives ≠ [] →
        e.alternatives = [(sampleEnv.render "<b>hi</b>" sampleUser, "text/html")]) :=
  email_plain_html sampleDrip sampleEnv sampleUser "Subj" "<b>hi</b>" rfl rfl

/-- C10: construction validates only the name — with a falsy name it
raises, with a truthy name it succeeds whatever the other keyword
arguments (in particular with both templates unset), binding exactly the
given attributes; a missing template surfaces only later, as the template
error of the message build, which creates no sent record. -/
theorem init_validates_only_name (dm : Drip) (k : InitKwargs) :
    (optFalsy k.name = true → DripBase.init dm k = .error "You must define a name.") ∧
    (optFalsy k.name = false →
      DripBase.init dm k = .ok
        { drip_model := dm
          name := k.name
          from_email := k.from_email
          from_email_name := k.from_email_name
          subject_template := k.subject_template
          body_template := k.body_template
          now_shift_days := k.now_shift_kwargs.getD 0
          _queryset := none }) ∧
    (∀ (self : DripBase) (env : Env) (w : World) (u : User) (s : Bool),
      self.subject_template = none ∨ self.body_template = none →
      optFalsy self.from_email = false →
      self.build_email u s env w = (.error .templateError, self, w)) := by
  refine ⟨?_, ?_, ?_⟩
  · intro h; simp [DripBase.init, h]
  · intro h; simp [DripBase.init, h]
  · intro self env w u s ht hfe
    cases ht with
    | inl h =>
      simp [DripBase.build_email, DripBase.resolveFrom, hfe, DripEmail.emailOf, h]
    | inr h =>
      cases hs : self.subject_template with
      | none =>
        simp [DripBase.build_email, DripBase.resolveFrom, hfe, DripEmail.emailOf, hs]
      | some st =>
        simp [DripBase.build_email, DripBase.resolveFrom, hfe, DripEmail.emailOf, hs, h]

/-- C10 witness: constructing with a name and no templates succeeds, and
building on the result fails with the template error while leaving the
world untouched. -/
theorem init_validates_only_name_witness :
    DripBase.init enabledModel { name := some "camp", from_email := some "a@b.com" } =
      .ok
        { drip_model := enabledModel
          name := some "camp"
          from_email := some "a@b.com"
          from_email_name := none
          subject_template := none
          body_template := none
          now_shift_days := 0
          _queryset := none } ∧
    ({ sampleDrip with subject_template := none }).build_email sampleUser true
        sampleEnv emptyWorld =
      (.error .templateError, { sampleDrip with subject_template := none },
        emptyWorld) :=
  ⟨(init_validates_only_name enabledModel
      { name := some "camp", from_email := some "a@b.com" }).2.1 rfl,
   (init_validates_only_name enabledModel
      { name := some "camp", from_email := some "a@b.com" }).2.2
     { sampleDrip with subject_template := none } sampleEnv emptyWorld sampleUser true
     (Or.inl rfl) rfl⟩


/-- Helper: sender resolution is the identity on an instance whose sender
address is already truthy. -/
theorem resolveFrom_set (self : DripBase) (env : Env)
    (hfe : optFalsy self.from_email = false) :
    self.resolveFrom env = .ok self := by
  simp [DripBase.resolveFrom, hfe]

/-- Helper: with both templates present the builder returns `mkEmail`. -/
theorem emailOf_ok (self : DripBase) (env : Env) (u : User) (st bt : String)
    (hst : self.subject_template = some st) (hbt : self.body_template = some bt) :
    DripEmail.emailOf self env u = .ok (mkEmail self env u st bt) := by
  simp [DripEmail.emailOf, hst, hbt]

/-- Helper: the successful committing build — sender already resolved,
templates present, transport succeeding — returns the built message,
leaves the instance unchanged, and appends exactly one sent record and
one outbox entry. -/
theorem build_email_success (self : DripBase) (env : Env) (w : World) (u : User)
    (st bt : String)
    (hfe : optFalsy self.from_email = false)
    (hst : self.subject_template = some st) (hbt : self.body_template = some bt)
    (htr : env.transport (mkEmail self env u st bt) = true) :
    self.build_email u true env w =
      (.ok (mkEmail self env u st bt), self,
        { w with sentDrips := w.sentDrips ++ [sentRecFor self env u st bt],
                 outbox := w.outbox ++ [mkEmail self env u st bt] }) := by
  simp [DripBase.build_email, resolveFrom_set self env hfe,
    emailOf_ok self env u st bt hst hbt, htr, sentRecFor]

/-- C4: on a committing build whose transport fails, the sent record has
already been created — the returned world carries the new record, with
the resolved sender and the rendered subject and plain body — the error
surfaces to the caller, and nothing reaches the outbox; the record is not
rolled back. -/
theorem build_email_records_before_transport (self : DripBase) (env : Env)
    (w : World) (u : User) (st bt : String)
    (hfe : optFalsy self.from_email = false)
    (hst : self.subject_template = some st) (hbt : self.body_template = some bt)
    (htr : env.transport (mkEmail self env u st bt) = false) :
    self.build_email u true env w =
      (.error .transportError, self,
        { w with sentDrips := w.sentDrips ++ [sentRecFor self env u st bt] }) := by
  simp [DripBase.build_email, resolveFrom_set self env hfe,
    emailOf_ok self env u st bt hst hbt, htr, sentRecFor]

/-- C4 witness: with the concrete always-failing transport, the committing
build surfaces the transport error while the sent record for the user
stays recorded. -/
theorem build_email_records_before_transport_witness :
    sampleDrip.build_email sampleUser true failEnv emptyWorld =
      (.error .transportError, sampleDrip,
        { emptyWorld with
            sentDrips := emptyWorld.sentDrips ++
              [sentRecFor sampleDrip failEnv sampleUser "Subj" "<b>hi</b>"] }) :=
  build_email_records_before_transport sampleDrip failEnv emptyWorld sampleUser
    "Subj" "<b>hi</b>" rfl rfl rfl rfl

/-- Helper: the send loop over any user list, under a resolved sender,
present templates and an always-succeeding transport, succeeds with the
count advanced by the list length, appending one sent record and one
outbox message per user in order. -/
theorem sendLoop_spec (self : DripBase) (env : Env) (st bt : String)
    (hfe : optFalsy self.from_email = false)
    (hst : self.subject_template = some st) (hbt : self.body_template = some bt)
    (htr : ∀ e, env.transport e = true) :
    ∀ (l : List User) (w : World) (c : Nat),
      sendLoop env self w l c =
        (.ok (c + l.length), self,
          { w with
              sentDrips := w.sentDrips ++ l.map (fun u => sentRecFor self env u st bt),
              outbox := w.outbox ++ l.map (fun u => mkEmail self env u st bt) }) := by
  intro l
  induction l with
  | nil => intro w c; simp [sendLoop]
  | cons u rest ih =>
    intro w c
    rw [sendLoop, build_email_success self env w u st bt hfe hst hbt (htr _)]
    dsimp only
    rw [ih]
    have hc : c + 1 + rest.length = c + (u :: rest).length := by
      simp only [List.length_cons]
      omega
    rw [hc]
    simp [World.mk.injEq, List.append_assoc]

/-- C2: `send()` on an instance whose candidate set is cached (as after
`prune()`), with templates present, a resolved sender and a transport
that always succeeds, returns exactly the number of users in the set
(zero for the empty set), creates exactly one new sent record per user of
the set, transports one message per user, and leaves the instance
unchanged. -/
theorem send_spec (self : DripBase) (env : Env) (w : World) (qs : List User)
    (st bt : String)
    (hq : self._queryset = some qs)
    (hfe : optFalsy self.from_email = false)
    (hst : self.subject_template = some st) (hbt : self.body_template = some bt)
    (htr : ∀ e, env.transport e = true) :
    self.send env w =
      (.ok qs.length, self,
        { w with
            sentDrips := w.sentDrips ++ qs.map (fun u => sentRecFor self env u st bt),
            outbox := w.outbox ++ qs.map (fun u => mkEmail self env u st bt) }) := by
  rw [DripBase.send]
  simp only [DripBase.get_queryset, hq]
  rw [sendLoop_spec self env st bt hfe hst hbt htr qs w 0]
  simp

/-- C2 witness: on the concrete cached two-user set, `send` returns two,
creating two sent records and two outbox messages. -/
theorem send_spec_witness :
    cachedDrip.send sampleEnv emptyWorld =
      (.ok 2, cachedDrip,
        { emptyWorld with
            sentDrips := emptyWorld.sentDrips ++
              [sampleUser, sampleUser2].map
                (fun u => sentRecFor cachedDrip sampleEnv u "Subj" "<b>hi</b>"),
            outbox := emptyWorld.outbox ++
              [sampleUser, sampleUser2].map
                (fun u => mkEmail cachedDrip sampleEnv u "Subj" "<b>hi</b>") }) :=
  send_spec cachedDrip sampleEnv emptyWorld [sampleUser, sampleUser2] "Subj"
    "<b>hi</b>" rfl rfl rfl rfl (fun _ => rfl)


/-- C1 (amended): after `prune()`, a user is in the cached candidate set
exactly when it was in the resolved candidate set and owns no sent record
for this drip dated strictly before the *real* current time
(`conditional_now()`), the instance's time shift playing no part. -/
theorem prune_dedup (self : DripBase) (env : Env) (w : World) (u : User) :
    u ∈ ((self.prune env w).1._queryset.getD []) ↔
      u ∈ (self.get_queryset env w).1 ∧
        ¬ ∃ sd ∈ w.sentDrips, sd.drip = self.drip_model.id ∧ sd.userId = u.id ∧
            sd.date < env.realNow := by
  have hw := (get_queryset_world self env w).1
  have hd := (get_queryset_fields self env w).1
  rw [DripBase.prune]
  simp only [get_queryset_stable self env w]
  simp only [Option.getD_some, List.mem_filter]
  rw [hw, hd]
  simp only [Bool.not_eq_true', ← Bool.not_eq_true, List.elem_iff, List.mem_map,
    List.mem_filter, Bool.and_eq_true, decide_eq_true_eq, beq_iff_eq]
  constructor
  · rintro ⟨hu, hn⟩
    refine ⟨hu, ?_⟩
    rintro ⟨sd, hsd, hdrip, huid, hdate⟩
    apply hn
    refine ⟨sd, ⟨hsd, ?_⟩, huid⟩
    refine ⟨⟨hdate, hdrip⟩, u, hu, huid.symm⟩
  · rintro ⟨hu, hn⟩
    refine ⟨hu, ?_⟩
    rintro ⟨sd, ⟨hsd, ⟨hdate, hdrip⟩, _⟩, huid⟩
    exact hn ⟨sd, hsd, hdrip, huid, hdate⟩


/-- C1 counterexample: on a one-day-future-shifted instance, a user with a
sent record for this drip dated strictly before the instance's effective
`now()` (though not before the real current time) survives `prune()`. -/
theorem prune_shift_counterexample :
    (shiftedDrip.prune sampleEnv worldWithSent).1._queryset = some [sampleUser] ∧
    sentAtZero ∈ worldWithSent.sentDrips ∧
    sentAtZero.drip = shiftedDrip.drip_model.id ∧
    sentAtZero.userId = sampleUser.id ∧
    sentAtZero.date < shiftedDrip.now sampleEnv.realNow := by
  decide

/-- C9 counterexample: `build_email` on an instance with no sender address
overwrites the instance's sender address with the settings default — the
instance is not immutable. -/
theorem build_email_mutates_sender :
    (unsetFromDrip.build_email sampleUser false sampleEnv emptyWorld).2.1.from_email ≠
      unsetFromDrip.from_email := by
  decide

/-- Helper: `sameCore` is reflexive. -/
theorem sameCore_refl (a : DripBase) : sameCore a a :=
  ⟨rfl, rfl, rfl, rfl, rfl, rfl⟩

/-- Helper: `sameCore` composes. -/
theorem sameCore_trans {a b c : DripBase} (h1 : sameCore a b) (h2 : sameCore b c) :
    sameCore a c := by
  obtain ⟨x1, x2, x3, x4, x5, x6⟩ := h1
  obtain ⟨y1, y2, y3, y4, y5, y6⟩ := h2
  exact ⟨y1.trans x1, y2.trans x2, y3.trans x3, y4.trans x4, y5.trans x5, y6.trans x6⟩

/-- Helper: `get_queryset` preserves the core attributes. -/
theorem get_queryset_sameCore (self : DripBase) (env : Env) (w : World) :
    sameCore self (self.get_queryset env w).2.1 := by
  obtain ⟨h1, h2, _, h4, h5, h6, h7⟩ := get_queryset_fields self env w
  exact ⟨h1, h2, h4, h5, h6, h7⟩

/-- Helper: `prune` preserves the core attributes and the sender
address. -/
theorem prune_fields (self : DripBase) (env : Env) (w : World) :
    sameCore self (self.prune env w).1 ∧
    (self.prune env w).1.from_email = self.from_email := by
  rw [DripBase.prune]
  simp only [get_queryset_stable self env w]
  exact ⟨get_queryset_sameCore self env w, (get_queryset_fields self env w).2.2.1⟩

/-- Helper: an already-set sender survives `resolveFrom` untouched, and in
general `resolveFrom` changes at most the sender address. -/
theorem resolveFrom_sameCore (self : DripBase) (env : Env) (s1 : DripBase)
    (h : self.resolveFrom env = .ok s1) :
    sameCore self s1 ∧ s1._queryset = self._queryset := by
  rw [DripBase.resolveFrom] at h
  by_cases hf : optFalsy self.from_email = true
  · rw [if_pos hf] at h
    cases hd : env.settings.DEFAULT_FROM_EMAIL with
    | none => rw [hd] at h; cases h
    | some d =>
      rw [hd] at h
      cases h
      exact ⟨⟨rfl, rfl, rfl, rfl, rfl, rfl⟩, rfl⟩
  · rw [if_neg hf] at h
    cases h
    exact ⟨sameCore_refl self, rfl⟩

/-- Helper: the instance `build_email` returns is exactly the one
`resolveFrom` produced, whatever the templates, `send` flag and
transport. -/
theorem build_email_snd (self : DripBase) (env : Env) (w : World) (u : User)
    (s : Bool) (s1 : DripBase) (hr : self.resolveFrom env = .ok s1) :
    (self.build_email u s env w).2.1 = s1 := by
  rw [DripBase.build_email, hr]
  dsimp only
  split
  · rfl
  · split
    · split
      · rfl
      · rfl
    · rfl

/-- Helper: when `resolveFrom` fails, `build_email` returns the instance
unchanged. -/
theorem build_email_snd_error (self : DripBase) (env : Env) (w : World) (u : User)
    (s : Bool) (e : BuildError) (hr : self.resolveFrom env = .error e) :
    (self.build_email u s env w).2.1 = self := by
  rw [DripBase.build_email, hr]

/-- Helper: `build_email` preserves the core attributes, and is the
identity on the instance when the sender address was already set. -/
theorem build_email_self (self : DripBase) (env : Env) (w : World) (u : User)
    (s : Bool) :
    sameCore self (self.build_email u s env w).2.1 ∧
    (optFalsy self.from_email = false → (self.build_email u s env w).2.1 = self) := by
  cases hr : self.resolveFrom env with
  | error e =>
    rw [build_email_snd_error self env w u s e hr]
    refine ⟨sameCore_refl self, fun _ => rfl⟩
  | ok s1 =>
    rw [build_email_snd self env w u s s1 hr]
    refine ⟨(resolveFrom_sameCore self env s1 hr).1, fun hf => ?_⟩
    have h2 := resolveFrom_set self env hf
    rw [h2] at hr
    cases hr
    rfl

/-- Helper: the send loop preserves the core attributes. -/
theorem sendLoop_sameCore (env : Env) :
    ∀ (l : List User) (self : DripBase) (w : World) (c : Nat),
      sameCore self (sendLoop env self w l c).2.1 := by
  intro l
  induction l with
  | nil => intro self w c; exact sameCore_refl self
  | cons u rest ih =>
    intro self w c
    rw [sendLoop]
    rcases hb : self.build_email u true env w with ⟨res, s1, w1⟩
    have h1 : sameCore self s1 := by
      have h := (build_email_self self env w u true).1
      rw [hb] at h
      exact h
    cases res with
    | ok e => exact sameCore_trans h1 (ih s1 w1 (c + 1))
    | error e => exact h1

/-- Helper: the send loop leaves the instance untouched when the sender
address was already set. -/
theorem sendLoop_const (env : Env) :
    ∀ (l : List User) (self : DripBase) (w : World) (c : Nat),
      optFalsy self.from_email = false → (sendLoop env self w l c).2.1 = self := by
  intro l
  induction l with
  | nil => intro self w c _; rfl
  | cons u rest ih =>
    intro self w c hf
    rw [sendLoop]
    rcases hb : self.build_email u true env w with ⟨res, s1, w1⟩
    have h1 : s1 = self := by
      have h := (build_email_self self env w u true).2 hf
      rw [hb] at h
      exact h
    subst h1
    cases res with
    | ok e => exact ih s1 w1 (c + 1) hf
    | error e => rfl

/-- Helper: `send` preserves the core attributes, and the sender address
when it was already set. -/
theorem send_fields (self : DripBase) (env : Env) (w : World) :
    sameCore self (self.send env w).2.1 ∧
    (optFalsy self.from_email = false →
      (self.send env w).2.1.from_email = self.from_email) := by
  rw [DripBase.send]
  constructor
  · exact sameCore_trans (get_queryset_sameCore self env w)
      (sendLoop_sameCore env _ _ _ _)
  · intro hf
    have hfe := (get_queryset_fields self env w).2.2.1
    have hf1 : optFalsy (self.get_queryset env w).2.1.from_email = false := by
      rw [hfe]; exact hf
    rw [sendLoop_const env _ _ _ _ hf1, hfe]

/-- Helper: `run` preserves the core attributes, and the sender address
when it was already set. -/
theorem run_fields (self : DripBase) (env : Env) (w : World) :
    sameCore self (self.run env w).2.1 ∧
    (optFalsy self.from_email = false →
      (self.run env w).2.1.from_email = self.from_email) := by
  rw [DripBase.run]
  cases he : self.drip_model.enabled with
  | false => exact ⟨sameCore_refl self, fun _ => rfl⟩
  | true =>
    simp only [if_true]
    obtain ⟨hpc, hpf⟩ := prune_fields self env w
    obtain ⟨hsc, hsf⟩ := send_fields (self.prune env w).1 env (self.prune env w).2
    rcases hs : (self.prune env w).1.send env (self.prune env w).2 with ⟨res, s2, w2⟩
    rw [hs] at hsc hsf
    cases res with
    | ok c =>
      refine ⟨sameCore_trans hpc hsc, fun hf => ?_⟩
      have : optFalsy (self.prune env w).1.from_email = false := by rw [hpf]; exact hf
      rw [hsf this, hpf]
    | error e =>
      refine ⟨sameCore_trans hpc hsc, fun hf => ?_⟩
      have : optFalsy (self.prune env w).1.from_email = false := by rw [hpf]; exact hf
      rw [hsf this, hpf]

/-- C9 (amended): the core operations never change an instance's name,
sender display name, subject or body template, or time shift; the cached
candidate set aside, the only attribute any of them writes is the sender
address, which `build_email` (and `send`/`run` through it) fills in from
the settings when it was unset, and which every operation preserves when
it was already set. -/
theorem core_attributes_immutable (self : DripBase) (env : Env) (w : World)
    (u : User) (s : Bool) :
    sameCore self (self.get_queryset env w).2.1 ∧
    (self.get_queryset env w).2.1.from_email = self.from_email ∧
    sameCore self (self.prune env w).1 ∧
    (self.prune env w).1.from_email = self.from_email ∧
    sameCore self (self.build_email u s env w).2.1 ∧
    sameCore self (self.send env w).2.1 ∧
    sameCore self (self.run env w).2.1 ∧
    (optFalsy self.from_email = false →
      (self.build_email u s env w).2.1 = self ∧
      (self.send env w).2.1.from_email = self.from_email ∧
      (self.run env w).2.1.from_email = self.from_email) :=
  ⟨get_queryset_sameCore self env w,
   (get_queryset_fields self env w).2.2.1,
   (prune_fields self env w).1,
   (prune_fields self env w).2,
   (build_email_self self env w u s).1,
   (send_fields self env w).1,
   (run_fields self env w).1,
   fun hf =>
     ⟨(build_email_self self env w u s).2 hf,
      (send_fields self env w).2 hf,
      (run_fields self env w).2 hf⟩⟩

/-- C9 witness: on the concrete fully configured campaign, `run` leaves
the sender address unchanged. -/
theorem core_attributes_immutable_witness :
    (sampleDrip.run sampleEnv emptyWorld).2.1.from_email = sampleDrip.from_email :=
  ((core_attributes_immutable sampleDrip sampleEnv emptyWorld sampleUser true).2.2.2.2.2.2.2
    rfl).2.2

end DripCore
